import Mathlib

/-!
Shallow embedding of the BabyBox playback-controller core
(`software/limits.py`, `software/db.py`, `software/controller.py`).

Conventions of the embedding:
* Python `int` is modelled as `Int`; Python `float` minutes (always produced by
  dividing integer seconds by `60.0`) are modelled as `ℚ`.
* `VideoStats.total_minutes` is a `ℚ`; durations are `Int` seconds.
* The sqlite database is modelled as in-memory lists of rows; `lastrowid` of
  `playback_log` is modelled as `log.length + 1` (autoincrement ids starting
  at 1, rows are never deleted).
* Settings are stored as `String × Int` pairs (the code stores strings and
  parses them with `int(...)`; the parse is not modelled, only the values).
* Side effects (buzzer, LED, player, db log calls) are recorded as an event
  trace returned next to the new state.
* Timestamps are a `DateTime` structure ordered lexicographically, matching
  the `YYYY-MM-DD HH:MM:SS` string comparison used by the SQL query.
-/

namespace BabyBox

/-- `MediaType` enum from `software/models.py`. -/
inductive MediaType
  | audio
  | video
  deriving DecidableEq, Repr

/-- `PlaybackState` enum from `software/models.py`. -/
inductive PlaybackState
  | idle
  | check_limits
  | loading
  | playing
  | finished
  deriving DecidableEq, Repr

/-- `VideoStats` dataclass from `software/models.py`. -/
structure VideoStats where
  count : Int := 0
  total_minutes : ℚ := 0
  deriving DecidableEq, Repr

/-- `LimitResult` from `software/limits.py`. -/
structure LimitResult where
  allowed : Bool
  is_last : Bool := false
  reason : String := ""
  deriving DecidableEq, Repr

/-- `check_video_limit` from `software/limits.py`, lines 13-47, transcribed
branch for branch (count limit, then time limit, then the projected-minutes
computation for `is_last`). -/
def check_video_limit (stats : VideoStats) (max_count max_minutes : Int)
    (video_duration_s : Int := 0) : LimitResult :=
  if stats.count ≥ max_count then
    { allowed := false,
      reason := "Video limit reached (" ++ toString max_count ++ " today)" }
  else if stats.total_minutes ≥ (max_minutes : ℚ) then
    { allowed := false,
      reason := "Video time limit reached (" ++ toString max_minutes ++ " min today)" }
  else
    let projected_minutes : ℚ := stats.total_minutes + (video_duration_s : ℚ) / 60
    let last_by_count : Bool := decide (stats.count + 1 ≥ max_count)
    let last_by_time : Bool := decide (projected_minutes ≥ (max_minutes : ℚ))
    { allowed := true, is_last := last_by_count || last_by_time }

/-- Timestamp with lexicographic order, standing for the
`YYYY-MM-DD HH:MM:SS` strings compared by the SQL query in
`get_today_video_stats` (`day` is an abstract day ordinal, so Python's
`now - timedelta(days=1)` is `day - 1`). -/
structure DateTime where
  day : Int
  hour : Int
  minute : Int
  second : Int
  deriving DecidableEq, Repr

/-- Chronological (equivalently, formatted-string) comparison of timestamps. -/
def DateTime.le (a b : DateTime) : Bool :=
  decide (a.day < b.day ∨ (a.day = b.day ∧
    (a.hour < b.hour ∨ (a.hour = b.hour ∧
      (a.minute < b.minute ∨ (a.minute = b.minute ∧ a.second ≤ b.second))))))

/-- A `media` table row (`software/models.py`; `source_url`/`created_at` are
never read by the controller paths and are omitted). -/
structure Media where
  id : Nat
  title : String
  filename : String
  media_type : MediaType
  thumbnail : Option String := none
  duration_s : Option Int := none
  deriving DecidableEq, Repr

/-- A `tags` table row (`software/models.py`). -/
structure Tag where
  uid : String
  media_id : Nat
  label : Option String := none
  deriving DecidableEq, Repr

/-- A `playback_log` table row; `ended` models `ended_at IS NOT NULL` and the
schema defaults are `completed = 0`, `ended_at = NULL` for a freshly opened
row. -/
structure LogRow where
  id : Nat
  media_id : Nat
  tag_uid : Option String := none
  started_at : DateTime
  ended : Bool := false
  completed : Bool := false
  deriving DecidableEq, Repr

/-- The sqlite database of `software/db.py` as in-memory tables. Settings are
`String × Int` pairs: the code stores the values as strings and parses them
with `int(...)` at every read, which we do not re-model. -/
structure Db where
  media : List Media
  tags : List Tag
  log : List LogRow
  settings : List (String × Int)
  deriving Repr

/-- `Database.get_media`: `SELECT * FROM media WHERE id = ?` (primary key). -/
def Db.get_media (db : Db) (media_id : Nat) : Option Media :=
  db.media.find? (fun m => m.id == media_id)

/-- `Database.get_tag`: `SELECT * FROM tags WHERE uid = ?` (primary key). -/
def Db.get_tag (db : Db) (uid : String) : Option Tag :=
  db.tags.find? (fun t => t.uid == uid)

/-- `Database.get_setting`: `SELECT value FROM settings WHERE key = ?`. -/
def Db.get_setting (db : Db) (key : String) : Option Int :=
  (db.settings.find? (fun kv => kv.1 == key)).map (fun kv => kv.2)

/-- `Database.log_playback_start`: inserts an open row and returns
`lastrowid`, modelled as `log.length + 1` (autoincrement from 1; playback-log
rows are never deleted). -/
def Db.log_playback_start (db : Db) (media_id : Nat) (tag_uid : Option String)
    (now : DateTime) : Nat × Db :=
  let log_id := db.log.length + 1
  (log_id,
    { db with log := db.log ++
        [{ id := log_id, media_id := media_id, tag_uid := tag_uid, started_at := now }] })

/-- `Database.log_playback_end`: `UPDATE playback_log SET ended_at =
CURRENT_TIMESTAMP, completed = ? WHERE id = ?`. -/
def Db.log_playback_end (db : Db) (log_id : Nat) (completed : Bool) : Db :=
  { db with log := db.log.map (fun r =>
      if r.id == log_id then { r with ended := true, completed := completed } else r) }

/-- `Database.get_today_video_stats` (db.py lines 189-213): the reset boundary
is yesterday's reset time if `now.hour < reset_hour`, else today's; the query
joins `playback_log` to `media` and counts completed video rows with
`started_at >= reset_time`, summing `duration_s` (`COALESCE`/`SUM` skip
missing durations). -/
def get_today_video_stats (db : Db) (now : DateTime) : VideoStats :=
  let reset_hour := (db.get_setting "limit_reset_hour").getD 6
  let reset_time : DateTime :=
    if now.hour < reset_hour then
      { day := now.day - 1, hour := reset_hour, minute := 0, second := 0 }
    else
      { day := now.day, hour := reset_hour, minute := 0, second := 0 }
  let joined := db.log.filterMap (fun r => (db.get_media r.media_id).map (fun m => (r, m)))
  let rows := joined.filter (fun rm =>
    rm.2.media_type == MediaType.video && rm.1.completed && DateTime.le reset_time rm.1.started_at)
  let total_s : Int := (rows.map (fun rm => rm.2.duration_s.getD 0)).sum
  { count := (rows.length : Int), total_minutes := (total_s : ℚ) / 60 }

/-- Default `BABYBOX_DATA_DIR` from `software/config.py`. -/
def BASE_DIR : String := "/home/pi/babybox"

/-- `AUDIO_DIR` from `software/config.py`. -/
def AUDIO_DIR : String := BASE_DIR ++ "/media/audio"

/-- `VIDEO_DIR` from `software/config.py`. -/
def VIDEO_DIR : String := BASE_DIR ++ "/media/video"

/-- The side effects a controller entry point can perform: buzzer cues, LED
cues, player calls, and the two playback-log database writes. -/
inductive Ev
  | buzzerScanConfirm
  | buzzerError
  | buzzerAllDone
  | buzzerLastVideoWarning
  | ledsScanFeedback
  | ledsAllDoneFeedback
  | ledsLastVideoWarning
  | ledsPlayingAnimation
  | ledsOff
  | ledsIdle
  | playerPlay (filepath : String) (media_type : MediaType)
  | playerStop
  | playerPauseToggle
  | logStart (log_id : Nat) (media_id : Nat) (uid : String)
  | logEnd (log_id : Nat) (completed : Bool)
  deriving DecidableEq, Repr

/-- The Controller's mutable fields (`Controller.__init__`,
controller.py lines 23-29), with their initial values as defaults. -/
structure CState where
  state : PlaybackState := PlaybackState.idle
  current_log_id : Option Nat := none
  current_media_id : Option Nat := none
  current_tag_uid : Option String := none
  was_last_video : Bool := false
  register_mode : Bool := false
  last_scanned_uid : Option String := none
  deriving DecidableEq, Repr

/-- The collaborators a controller call reads: the database, the filesystem
(`Path.exists`), and the current local time. -/
structure Env where
  db : Db
  file_exists : String → Bool
  now : DateTime

/-- The limit check performed in `Controller._process_tag` for VIDEO media
(controller.py lines 96-104): take today's stats and the settings snapshot,
then call `check_video_limit` with `media.duration_s or 0`. -/
def video_limit_result (env : Env) (media : Media) : LimitResult :=
  let stats := get_today_video_stats env.db env.now
  let max_count := (env.db.get_setting "daily_video_limit_count").getD 5
  let max_minutes := (env.db.get_setting "daily_video_limit_minutes").getD 60
  check_video_limit stats max_count max_minutes (media.duration_s.getD 0)

/-- The load-and-play tail of `Controller._process_tag` (controller.py lines
119-145): LOADING, scan feedback, file-existence check, then open the log
row and start playing. `evs` are the events already emitted by the limit
check. -/
def load_and_play (env : Env) (cs : CState) (uid : String) (media : Media)
    (evs : List Ev) : CState × Db × List Ev :=
  let cs := { cs with state := PlaybackState.loading }
  let evs := evs ++ [Ev.buzzerScanConfirm, Ev.ledsScanFeedback]
  let filepath :=
    (if media.media_type = MediaType.video then VIDEO_DIR else AUDIO_DIR)
      ++ "/" ++ media.filename
  if ¬ env.file_exists filepath then
    ({ cs with state := PlaybackState.idle }, env.db, evs ++ [Ev.buzzerError, Ev.ledsIdle])
  else
    let sr := env.db.log_playback_start media.id (some uid) env.now
    let cs := { cs with
      current_media_id := some media.id
      current_tag_uid := some uid
      current_log_id := some sr.1
      state := PlaybackState.playing }
    (cs, sr.2, evs ++ [Ev.logStart sr.1 media.id uid, Ev.ledsPlayingAnimation,
      Ev.playerPlay filepath media.media_type])

/-- `Controller._process_tag` (controller.py lines 77-145). -/
def process_tag (env : Env) (cs : CState) (uid : String) : CState × Db × List Ev :=
  match env.db.get_tag uid with
  | none => (cs, env.db, [Ev.buzzerError])
  | some tag =>
    match env.db.get_media tag.media_id with
    | none => (cs, env.db, [Ev.buzzerError])
    | some media =>
      let cs := { cs with state := PlaybackState.check_limits, was_last_video := false }
      if media.media_type = MediaType.video then
        let result := video_limit_result env media
        if ¬ result.allowed then
          ({ cs with state := PlaybackState.idle }, env.db,
            [Ev.buzzerAllDone, Ev.ledsAllDoneFeedback])
        else if result.is_last then
          load_and_play env { cs with was_last_video := true } uid media
            [Ev.buzzerLastVideoWarning, Ev.ledsLastVideoWarning]
        else
          load_and_play env cs uid media []
      else
        load_and_play env cs uid media []

/-- `Controller.on_tag_scanned` (controller.py lines 61-75): record the UID
first (outside any guard), divert to register-mode capture, ignore scans in
non-IDLE states, else run `_process_tag`. -/
def on_tag_scanned (env : Env) (cs : CState) (uid : String) : CState × Db × List Ev :=
  let cs := { cs with last_scanned_uid := some uid }
  if cs.register_mode then
    (cs, env.db, [Ev.buzzerScanConfirm, Ev.ledsScanFeedback])
  else if cs.state ≠ PlaybackState.idle then
    (cs, env.db, [])
  else
    process_tag env cs uid

/-- `Controller._cleanup_state` (controller.py lines 188-194). -/
def cleanup_state (cs : CState) : CState × List Ev :=
  ({ cs with
      current_log_id := none
      current_media_id := none
      current_tag_uid := none
      was_last_video := false
      state := PlaybackState.idle }, [Ev.ledsIdle])

/-- `Controller._on_playback_end` (controller.py lines 147-167). The guard
`if self._current_log_id:` follows Python truthiness: `None` and `0` both
skip the close. -/
def on_playback_end (cs : CState) (db : Db) : CState × Db × List Ev :=
  if cs.state ≠ PlaybackState.playing then
    (cs, db, [])
  else
    let cs := { cs with state := PlaybackState.finished }
    let close : Db × List Ev :=
      match cs.current_log_id with
      | some i => if i ≠ 0 then (db.log_playback_end i true, [Ev.logEnd i true]) else (db, [])
      | none => (db, [])
    let feedback :=
      if cs.was_last_video then [Ev.buzzerAllDone, Ev.ledsAllDoneFeedback] else [Ev.ledsOff]
    let cl := cleanup_state cs
    (cl.1, close.1, close.2 ++ feedback ++ cl.2)

/-- `Controller.on_play_pause` (controller.py lines 169-173). -/
def on_play_pause (cs : CState) (db : Db) : CState × Db × List Ev :=
  if cs.state = PlaybackState.playing then (cs, db, [Ev.playerPauseToggle])
  else (cs, db, [])

/-- `Controller.on_stop` (controller.py lines 175-186), with the same Python
truthiness guard on the log id as `_on_playback_end`. -/
def on_stop (cs : CState) (db : Db) : CState × Db × List Ev :=
  if cs.state = PlaybackState.playing then
    let close : Db × List Ev :=
      match cs.current_log_id with
      | some i => if i ≠ 0 then (db.log_playback_end i false, [Ev.logEnd i false]) else (db, [])
      | none => (db, [])
    let cl := cleanup_state cs
    (cl.1, close.1, [Ev.playerStop] ++ close.2 ++ [Ev.ledsOff] ++ cl.2)
  else (cs, db, [])

/-- Does the event record a `log_playback_start` call? -/
def isLogStart : Ev → Bool
  | Ev.logStart _ _ _ => true
  | _ => false

/-- Does the event record a `log_playback_end` call? -/
def isLogEnd : Ev → Bool
  | Ev.logEnd _ _ => true
  | _ => false

/-- Number of events in the trace satisfying `p`. -/
def countEv (evs : List Ev) (p : Ev → Bool) : Nat := (evs.filter p).length

/-- One full natural session for the round-trip property: a tag scan followed
by the player's end-of-playback callback; final controller state, final
database and the concatenated event trace. -/
def scan_then_end (env : Env) (cs : CState) (uid : String) : CState × Db × List Ev :=
  let r1 := on_tag_scanned env cs uid
  let r2 := on_playback_end r1.1 r1.2.1
  (r2.1, r2.2.1, r1.2.2 ++ r2.2.2)

/-- One kind of access to the Controller's session state: the lifecycle
state, the active-session fields (`_current_log_id`, `_current_media_id`,
`_current_tag_uid`, `_was_last_video`), the register-mode flag, or the
last-scanned UID. -/
inductive Access
  | readState
  | writeState
  | readSession
  | writeSession
  | readRegisterMode
  | writeRegisterMode
  | readLastUid
  | writeLastUid
  deriving DecidableEq, Repr

/-- One session-state access performed by a controller operation, paired with
whether the code performs it while holding `self._lock`. -/
structure LockedAccess where
  access : Access
  under_lock : Bool
  deriving DecidableEq, Repr

/-- Accesses of `Controller.on_tag_scanned` (controller.py lines 61-75): the
write of `_last_scanned_uid` (line 63) and the read of `_register_mode`
(line 65) happen before `with self._lock:` (line 71); the state check
(line 72) and `_process_tag`'s state/session writes happen under it. -/
def on_tag_scanned_accesses : List LockedAccess :=
  [⟨Access.writeLastUid, false⟩, ⟨Access.readRegisterMode, false⟩,
   ⟨Access.readState, true⟩, ⟨Access.writeState, true⟩,
   ⟨Access.readSession, true⟩, ⟨Access.writeSession, true⟩]

/-- Accesses of `Controller._on_playback_end` (lines 147-167): everything is
inside `with self._lock:`. -/
def on_playback_end_accesses : List LockedAccess :=
  [⟨Access.readState, true⟩, ⟨Access.writeState, true⟩,
   ⟨Access.readSession, true⟩, ⟨Access.writeSession, true⟩]

/-- Accesses of `Controller.on_play_pause` (lines 169-173): the state read is
inside `with self._lock:`. -/
def on_play_pause_accesses : List LockedAccess :=
  [⟨Access.readState, true⟩]

/-- Accesses of `Controller.on_stop` (lines 175-186): everything is inside
`with self._lock:`. -/
def on_stop_accesses : List LockedAccess :=
  [⟨Access.readState, true⟩, ⟨Access.readSession, true⟩,
   ⟨Access.writeSession, true⟩, ⟨Access.writeState, true⟩]

/-- Accesses of `Controller.get_status` (lines 196-219): reads `_state`,
`_register_mode`, `_last_scanned_uid` and `_current_media_id` with no
`with self._lock:` anywhere in the method. -/
def get_status_accesses : List LockedAccess :=
  [⟨Access.readState, false⟩, ⟨Access.readRegisterMode, false⟩,
   ⟨Access.readLastUid, false⟩, ⟨Access.readSession, false⟩]

/-- Accesses of the `register_mode` property setter (lines 45-51): writes
`_register_mode` with no lock. -/
def register_mode_setter_accesses : List LockedAccess :=
  [⟨Access.writeRegisterMode, false⟩]

/-- Does the operation perform every one of its session-state accesses while
holding the lock? -/
def fully_locked (l : List LockedAccess) : Bool :=
  l.all (fun a => a.under_lock)

/-- Sample audio media row (mirrors the repository's test fixture). -/
def sampleAudio : Media :=
  { id := 1, title := "Test Song", filename := "test.mp3",
    media_type := MediaType.audio, duration_s := some 180 }

/-- Sample video media row with no recorded duration. -/
def sampleVideoNoDur : Media :=
  { id := 2, title := "Test Video", filename := "test.mp4",
    media_type := MediaType.video }

/-- A fixed current time, noon of an arbitrary day. -/
def sampleNow : DateTime := { day := 20000, hour := 12, minute := 0, second := 0 }

/-- An empty database. -/
def emptyDb : Db := { media := [], tags := [], log := [], settings := [] }

/-- Environment with an empty database and no files on disk. -/
def emptyEnv : Env := { db := emptyDb, file_exists := fun _ => false, now := sampleNow }

/-- Database with one audio item and one tag mapped to it. -/
def sampleDb : Db :=
  { media := [sampleAudio], tags := [{ uid := "TAG1", media_id := 1 }],
    log := [], settings := [] }

/-- Environment where `TAG1`'s audio file exists on disk. -/
def sampleEnv : Env :=
  { db := sampleDb, file_exists := fun p => p == AUDIO_DIR ++ "/test.mp3",
    now := sampleNow }

/-- A controller state mid-playback with a previously scanned UID. -/
def csPlaying : CState :=
  { state := PlaybackState.playing, last_scanned_uid := some "OLD" }

/-- A controller state mid-playback with an open log row (the repository's
`test_stop_returns_to_idle` setup). -/
def stopCs : CState :=
  { state := PlaybackState.playing, current_log_id := some 1,
    current_media_id := some 1, current_tag_uid := some "TAG1" }

/-- Database holding the open log row that `stopCs` refers to. -/
def openRowDb : Db :=
  { media := [sampleAudio], tags := [],
    log := [{ id := 1, media_id := 1, tag_uid := some "TAG1", started_at := sampleNow }],
    settings := [] }

/-- C1: `check_video_limit` denies (allowed = false) whenever
`stats.count ≥ maxCount` or `stats.totalMinutes ≥ maxMinutes`, regardless of
the candidate duration; and on the literal scenario
`stats = {count := 5, totalMinutes := 40}`, `maxCount = 5`, `maxMinutes = 60`
it denies with the count-limit reason string, for every duration. -/
theorem check_video_limit_denies_at_limit :
    (∀ (stats : VideoStats) (mc mm d : Int),
        stats.count ≥ mc ∨ stats.total_minutes ≥ (mm : ℚ) →
        (check_video_limit stats mc mm d).allowed = false) ∧
    (∀ d : Int,
        check_video_limit ⟨5, 40⟩ 5 60 d =
          { allowed := false, reason := "Video limit reached (5 today)" }) := by
  constructor
  · rintro stats mc mm d (h | h)
    · simp [check_video_limit, h]
    · unfold check_video_limit
      by_cases h1 : stats.count ≥ mc
      · simp [h1]
      · simp only [ge_iff_le] at h h1
        simp [h1, h]
  · intro d
    rfl

/-- Closed witness for C1 at `stats = ⟨6, 0⟩`, limits `5`/`60`, duration `100`. -/
theorem check_video_limit_denies_at_limit_witness :
    ((6 : Int) ≥ 5 ∨ ((0 : ℚ) ≥ (60 : ℚ))) ∧
      (check_video_limit ⟨6, 0⟩ 5 60 100).allowed = false :=
  ⟨Or.inl (by decide),
    check_video_limit_denies_at_limit.1 ⟨6, 0⟩ 5 60 100 (Or.inl (by decide))⟩

/-- C2: whenever `check_video_limit` allows, `is_last` is true iff
`stats.count + 1 ≥ maxCount` or `stats.totalMinutes + duration/60 ≥ maxMinutes`
(boundary equality included); and the literal scenario
`stats = {count := 4, totalMinutes := 30}`, limits `5`/`60`, duration `300`
yields `allowed = true` and `is_last = true`. -/
theorem check_video_limit_is_last_iff :
    (∀ (stats : VideoStats) (mc mm d : Int),
        (check_video_limit stats mc mm d).allowed = true →
        ((check_video_limit stats mc mm d).is_last = true ↔
          (stats.count + 1 ≥ mc ∨
            stats.total_minutes + (d : ℚ) / 60 ≥ (mm : ℚ)))) ∧
    check_video_limit ⟨4, 30⟩ 5 60 300 = { allowed := true, is_last := true } := by
  constructor
  · intro stats mc mm d h
    by_cases h1 : stats.count ≥ mc
    · simp [check_video_limit, h1] at h
    · by_cases h2 : stats.total_minutes ≥ (mm : ℚ)
      · simp only [ge_iff_le] at h1 h2
        simp [check_video_limit, h1, h2] at h
      · simp only [ge_iff_le] at h1 h2 ⊢
        simp [check_video_limit, h1, h2, Bool.or_eq_true, decide_eq_true_iff]
  · rfl

/-- Closed witness for C2 at the literal boundary scenario. -/
theorem check_video_limit_is_last_iff_witness :
    (check_video_limit ⟨4, 30⟩ 5 60 300).is_last = true ↔
      ((4 : Int) + 1 ≥ 5 ∨ (30 : ℚ) + (300 : ℚ) / 60 ≥ (60 : ℚ)) :=
  check_video_limit_is_last_iff.1 ⟨4, 30⟩ 5 60 300 (by rfl)

/-- C3 counterexample: it is not the case that all six operations
(`on_tag_scanned`, `_on_playback_end`, `on_play_pause`, `on_stop`,
`get_status`, the `register_mode` setter) perform their session-state
accesses under the lock: `get_status` and the `register_mode` setter take no
lock at all, and `on_tag_scanned` touches state before acquiring it. -/
theorem controller_lock_discipline_counterexample :
    ¬ (fully_locked on_tag_scanned_accesses = true ∧
       fully_locked on_playback_end_accesses = true ∧
       fully_locked on_play_pause_accesses = true ∧
       fully_locked on_stop_accesses = true ∧
       fully_locked get_status_accesses = true ∧
       fully_locked register_mode_setter_accesses = true) := by decide

/-- C3 (amended): `_on_playback_end`, `on_play_pause` and `on_stop` perform
all their session-state accesses under the lock, and `on_tag_scanned`
performs its lifecycle-state and session-field accesses under the lock; but
`get_status`, the `register_mode` setter, and `on_tag_scanned`'s
last-scanned-UID write and register-mode read access session state without
holding the lock. -/
theorem controller_lock_discipline :
    fully_locked on_playback_end_accesses = true ∧
    fully_locked on_play_pause_accesses = true ∧
    fully_locked on_stop_accesses = true ∧
    fully_locked (on_tag_scanned_accesses.filter (fun a =>
      a.access == Access.readState || a.access == Access.writeState ||
      a.access == Access.readSession || a.access == Access.writeSession)) = true ∧
    fully_locked get_status_accesses = false ∧
    fully_locked register_mode_setter_accesses = false ∧
    fully_locked on_tag_scanned_accesses = false := by decide

/-- C4 counterexample: with the controller PLAYING (register mode off), a
second `on_tag_scanned` is not a no-op on all session fields — it overwrites
the most recently scanned tag UID. -/
theorem on_tag_scanned_playing_changes_uid :
    (on_tag_scanned emptyEnv csPlaying "NEW").1 ≠ csPlaying ∧
    (on_tag_scanned emptyEnv csPlaying "NEW").1.last_scanned_uid = some "NEW" ∧
    csPlaying.last_scanned_uid = some "OLD" := by decide

/-- C4 (amended): while PLAYING with register mode off, a second
`on_tag_scanned` call leaves the lifecycle state and every session field
unchanged and performs no side effect, except that it records the scanned
UID as `last_scanned_uid` (this write happens before the state guard). -/
theorem on_tag_scanned_playing_noop_except_last_uid
    (env : Env) (cs : CState) (uid : String)
    (hst : cs.state = PlaybackState.playing) (hreg : cs.register_mode = false) :
    on_tag_scanned env cs uid = ({ cs with last_scanned_uid := some uid }, env.db, []) := by
  simp [on_tag_scanned, hreg, hst]

/-- Closed witness for the amended C4 at `csPlaying`. -/
theorem on_tag_scanned_playing_noop_witness :
    on_tag_scanned emptyEnv csPlaying "NEW" =
      ({ csPlaying with last_scanned_uid := some "NEW" }, emptyEnv.db, []) :=
  on_tag_scanned_playing_noop_except_last_uid emptyEnv csPlaying "NEW" rfl rfl

/-- C7: scanning a UID with no Tag row, from IDLE with register mode off,
leaves the lifecycle state IDLE, emits exactly one error cue, creates no
playback-log row, and records no `log_playback_start` call. -/
theorem scan_unknown_tag_stays_idle
    (env : Env) (cs : CState) (uid : String)
    (hst : cs.state = PlaybackState.idle) (hreg : cs.register_mode = false)
    (htag : env.db.get_tag uid = none) :
    (on_tag_scanned env cs uid).1.state = PlaybackState.idle ∧
    countEv (on_tag_scanned env cs uid).2.2 (fun e => e == Ev.buzzerError) = 1 ∧
    countEv (on_tag_scanned env cs uid).2.2 isLogStart = 0 ∧
    (on_tag_scanned env cs uid).2.1.log = env.db.log := by
  simp [on_tag_scanned, hreg, hst, process_tag, htag, countEv, isLogStart]

/-- Closed witness for C7: scanning `"UNKNOWN"` on the empty database. -/
theorem scan_unknown_tag_stays_idle_witness :
    (on_tag_scanned emptyEnv {} "UNKNOWN").1.state = PlaybackState.idle ∧
    countEv (on_tag_scanned emptyEnv {} "UNKNOWN").2.2 (fun e => e == Ev.buzzerError) = 1 ∧
    countEv (on_tag_scanned emptyEnv {} "UNKNOWN").2.2 isLogStart = 0 ∧
    (on_tag_scanned emptyEnv {} "UNKNOWN").2.1.log = emptyEnv.db.log :=
  scan_unknown_tag_stays_idle emptyEnv {} "UNKNOWN" rfl rfl rfl

/-- C9: `on_stop` is a no-op in every state other than PLAYING; from PLAYING
with an open log row it stops the player, closes that row as not-completed,
clears feedback, resets the session fields and returns to IDLE; and
`log_playback_end i false` marks every row with id `i` as ended and
not-completed. -/
theorem on_stop_spec :
    (∀ (cs : CState) (db : Db), cs.state ≠ PlaybackState.playing →
      on_stop cs db = (cs, db, [])) ∧
    (∀ (cs : CState) (db : Db) (i : Nat),
      cs.state = PlaybackState.playing → cs.current_log_id = some i → i ≠ 0 →
      on_stop cs db =
        ({ cs with
            current_log_id := none
            current_media_id := none
            current_tag_uid := none
            was_last_video := false
            state := PlaybackState.idle },
          db.log_playback_end i false,
          [Ev.playerStop, Ev.logEnd i false, Ev.ledsOff, Ev.ledsIdle])) ∧
    (∀ (db : Db) (i : Nat) (r : LogRow),
      r ∈ (db.log_playback_end i false).log → r.id = i →
      r.ended = true ∧ r.completed = false) := by
  refine ⟨?_, ?_, ?_⟩
  · intro cs db h
    simp [on_stop, h]
  · intro cs db i hst hlog hi
    simp [on_stop, hst, hlog, hi, cleanup_state]
  · intro db i r hr hid
    unfold Db.log_playback_end at hr
    simp only [List.mem_map] at hr
    obtain ⟨pre, hpre, rfl⟩ := hr
    by_cases hb : pre.id = i
    · simp [hb]
    · have hfalse : (pre.id == i) = false := by simpa using hb
      simp [hfalse] at hid
      exact absurd hid hb

/-- Closed witness for C9: a non-PLAYING no-op, the stop of `stopCs` against
`openRowDb`, and the closed row of the updated log. -/
theorem on_stop_spec_witness :
    (on_stop { state := PlaybackState.check_limits } emptyDb =
      ({ state := PlaybackState.check_limits }, emptyDb, [])) ∧
    (on_stop stopCs openRowDb =
      ({ stopCs with
          current_log_id := none
          current_media_id := none
          current_tag_uid := none
          was_last_video := false
          state := PlaybackState.idle },
        openRowDb.log_playback_end 1 false,
        [Ev.playerStop, Ev.logEnd 1 false, Ev.ledsOff, Ev.ledsIdle])) ∧
    (({ id := 1, media_id := 1, tag_uid := some "TAG1", started_at := sampleNow, ended := true, completed := false } : LogRow).ended = true ∧
      ({ id := 1, media_id := 1, tag_uid := some "TAG1", started_at := sampleNow, ended := true, completed := false } : LogRow).completed = false) :=
  ⟨on_stop_spec.1 _ emptyDb (by decide),
   on_stop_spec.2.1 stopCs openRowDb 1 rfl rfl (by decide),
   on_stop_spec.2.2 openRowDb 1 _ (by decide) rfl⟩

/-- C8: when a scan from IDLE resolves to a Media whose file is absent on
disk (and the limit check, if any, does not deny), the controller emits
error feedback and returns to IDLE; no playback-log row is opened and
`log_playback_start` is never called. -/
theorem scan_missing_file_returns_idle
    (env : Env) (cs : CState) (uid : String) (tag : Tag) (media : Media)
    (hst : cs.state = PlaybackState.idle) (hreg : cs.register_mode = false)
    (htag : env.db.get_tag uid = some tag)
    (hmedia : env.db.get_media tag.media_id = some media)
    (hallow : media.media_type = MediaType.audio ∨
      (video_limit_result env media).allowed = true)
    (hfile : env.file_exists
        ((if media.media_type = MediaType.video then VIDEO_DIR else AUDIO_DIR)
          ++ "/" ++ media.filename) = false) :
    (on_tag_scanned env cs uid).1.state = PlaybackState.idle ∧
    countEv (on_tag_scanned env cs uid).2.2 (fun e => e == Ev.buzzerError) = 1 ∧
    countEv (on_tag_scanned env cs uid).2.2 isLogStart = 0 ∧
    (on_tag_scanned env cs uid).2.1.log = env.db.log := by
  cases hmt : media.media_type with
  | audio =>
    rw [hmt] at hfile
    simp at hfile
    simp [on_tag_scanned, hreg, hst, process_tag, htag, hmedia, hmt,
      load_and_play, hfile, countEv, isLogStart]
  | video =>
    have hall : (video_limit_result env media).allowed = true := by
      rcases hallow with h | h
      · rw [hmt] at h
        exact absurd h (by simp)
      · exact h
    rw [hmt] at hfile
    simp at hfile
    cases hl : (video_limit_result env media).is_last with
    | true =>
      simp [on_tag_scanned, hreg, hst, process_tag, htag, hmedia, hmt, hall, hl,
        load_and_play, hfile, countEv, isLogStart]
    | false =>
      simp [on_tag_scanned, hreg, hst, process_tag, htag, hmedia, hmt, hall, hl,
        load_and_play, hfile, countEv, isLogStart]

/-- Closed witness for C8: `TAG1` resolves to the sample audio item but no
file exists on disk. -/
theorem scan_missing_file_returns_idle_witness :
    (on_tag_scanned { sampleEnv with file_exists := fun _ => false } {} "TAG1").1.state
        = PlaybackState.idle ∧
    countEv (on_tag_scanned { sampleEnv with file_exists := fun _ => false } {} "TAG1").2.2
        (fun e => e == Ev.buzzerError) = 1 ∧
    countEv (on_tag_scanned { sampleEnv with file_exists := fun _ => false } {} "TAG1").2.2
        isLogStart = 0 ∧
    (on_tag_scanned { sampleEnv with file_exists := fun _ => false } {} "TAG1").2.1.log
        = ({ sampleEnv with file_exists := fun _ => false } : Env).db.log :=
  scan_missing_file_returns_idle _ {} "TAG1" { uid := "TAG1", media_id := 1 } sampleAudio
    rfl rfl (by decide) (by decide) (Or.inl rfl) rfl

/-- `load_and_play` either fails the file check — back to IDLE, database
untouched, error feedback appended — or commits: it opens log row
`log.length + 1`, records the session fields, moves to PLAYING and starts
the player. -/
theorem load_and_play_cases (env : Env) (cs : CState) (uid : String)
    (media : Media) (evs : List Ev) :
    ((load_and_play env cs uid media evs).1.state = PlaybackState.idle ∧
      (load_and_play env cs uid media evs).2.1 = env.db ∧
      (load_and_play env cs uid media evs).2.2 =
        evs ++ [Ev.buzzerScanConfirm, Ev.ledsScanFeedback, Ev.buzzerError, Ev.ledsIdle]) ∨
    (∃ f : String,
      load_and_play env cs uid media evs =
        ({ cs with
            current_media_id := some media.id
            current_tag_uid := some uid
            current_log_id := some (env.db.log.length + 1)
            state := PlaybackState.playing },
          (env.db.log_playback_start media.id (some uid) env.now).2,
          evs ++ [Ev.buzzerScanConfirm, Ev.ledsScanFeedback,
            Ev.logStart (env.db.log.length + 1) media.id uid,
            Ev.ledsPlayingAnimation, Ev.playerPlay f media.media_type])) := by
  by_cases hf : env.file_exists
      ((if media.media_type = MediaType.video then VIDEO_DIR else AUDIO_DIR)
        ++ "/" ++ media.filename)
  · right
    refine ⟨(if media.media_type = MediaType.video then VIDEO_DIR else AUDIO_DIR)
        ++ "/" ++ media.filename, ?_⟩
    simp [load_and_play, hf, Db.log_playback_start]
  · left
    simp [load_and_play, hf]

/-- `_on_playback_end` from PLAYING with a non-zero open log id closes that
row as completed, emits the end-of-session feedback, and resets the session
fields to IDLE. -/
theorem on_playback_end_closes (cs : CState) (db : Db) (i : Nat)
    (hst : cs.state = PlaybackState.playing)
    (hlog : cs.current_log_id = some i) (hi : i ≠ 0) :
    on_playback_end cs db =
      ({ cs with
          current_log_id := none
          current_media_id := none
          current_tag_uid := none
          was_last_video := false
          state := PlaybackState.idle },
        db.log_playback_end i true,
        [Ev.logEnd i true] ++
          (if cs.was_last_video then [Ev.buzzerAllDone, Ev.ledsAllDoneFeedback]
            else [Ev.ledsOff]) ++ [Ev.ledsIdle]) := by
  simp [on_playback_end, hst, hlog, hi, cleanup_state]

/-- After `_process_tag` from IDLE has reached PLAYING, the completion
callback closes the single newly created log row as completed and resets the
session fields: stated over the `process_tag` / `_on_playback_end`
composition for an arbitrary pre-scan state. -/
theorem process_then_end_spec (env : Env) (cs1 : CState) (uid : String)
    (hst1 : cs1.state = PlaybackState.idle)
    (hplay : (process_tag env cs1 uid).1.state = PlaybackState.playing) :
    (on_playback_end (process_tag env cs1 uid).1 (process_tag env cs1 uid).2.1).2.1.log.length = env.db.log.length + 1 ∧
    countEv ((process_tag env cs1 uid).2.2 ++ (on_playback_end (process_tag env cs1 uid).1 (process_tag env cs1 uid).2.1).2.2) isLogStart = 1 ∧
    (((process_tag env cs1 uid).2.2 ++ (on_playback_end (process_tag env cs1 uid).1 (process_tag env cs1 uid).2.1).2.2).filter isLogEnd = [Ev.logEnd (env.db.log.length + 1) true]) ∧
    (∃ mid : Nat, (on_playback_end (process_tag env cs1 uid).1 (process_tag env cs1 uid).2.1).2.1.log.getLast? = some { id := env.db.log.length + 1, media_id := mid, tag_uid := some uid, started_at := env.now, ended := true, completed := true }) ∧
    (on_playback_end (process_tag env cs1 uid).1 (process_tag env cs1 uid).2.1).1.current_log_id = none ∧
    (on_playback_end (process_tag env cs1 uid).1 (process_tag env cs1 uid).2.1).1.current_media_id = none ∧
    (on_playback_end (process_tag env cs1 uid).1 (process_tag env cs1 uid).2.1).1.current_tag_uid = none ∧
    (on_playback_end (process_tag env cs1 uid).1 (process_tag env cs1 uid).2.1).1.was_last_video = false ∧
    (on_playback_end (process_tag env cs1 uid).1 (process_tag env cs1 uid).2.1).1.state = PlaybackState.idle := by
  cases htag : env.db.get_tag uid with
  | none =>
    have : (process_tag env cs1 uid).1.state = PlaybackState.idle := by
      simp [process_tag, htag, hst1]
    rw [this] at hplay
    exact absurd hplay (by decide)
  | some tag =>
    cases hmed : env.db.get_media tag.media_id with
    | none =>
      have : (process_tag env cs1 uid).1.state = PlaybackState.idle := by
        simp [process_tag, htag, hmed, hst1]
      rw [this] at hplay
      exact absurd hplay (by decide)
    | some media =>
      by_cases hv : media.media_type = MediaType.video
      · by_cases hall : (video_limit_result env media).allowed = true
        · cases hl : (video_limit_result env media).is_last with
          | true =>
            have hstep : process_tag env cs1 uid =
                load_and_play env { cs1 with state := PlaybackState.check_limits, was_last_video := true }
                  uid media [Ev.buzzerLastVideoWarning, Ev.ledsLastVideoWarning] := by
              simp [process_tag, htag, hmed, hv, hall, hl]
            rcases load_and_play_cases env
                { cs1 with state := PlaybackState.check_limits, was_last_video := true }
                uid media [Ev.buzzerLastVideoWarning, Ev.ledsLastVideoWarning] with
              ⟨hs, _, _⟩ | ⟨f, heq⟩
            · rw [hstep, hs] at hplay
              exact absurd hplay (by decide)
            · rw [hstep, heq]
              rw [on_playback_end_closes _ _ (env.db.log.length + 1) rfl rfl
                (Nat.succ_ne_zero _)]
              refine ⟨?_, ?_, ?_, ⟨media.id, ?_⟩, ?_, ?_, ?_, ?_, ?_⟩ <;>
                simp [Db.log_playback_start, Db.log_playback_end, countEv,
                  isLogStart, isLogEnd, List.filter_append, List.map_append,
                  List.getLast?_concat]
          | false =>
            have hstep : process_tag env cs1 uid =
                load_and_play env { cs1 with state := PlaybackState.check_limits, was_last_video := false }
                  uid media [] := by
              simp [process_tag, htag, hmed, hv, hall, hl]
            rcases load_and_play_cases env
                { cs1 with state := PlaybackState.check_limits, was_last_video := false }
                uid media [] with
              ⟨hs, _, _⟩ | ⟨f, heq⟩
            · rw [hstep, hs] at hplay
              exact absurd hplay (by decide)
            · rw [hstep, heq]
              rw [on_playback_end_closes _ _ (env.db.log.length + 1) rfl rfl
                (Nat.succ_ne_zero _)]
              refine ⟨?_, ?_, ?_, ⟨media.id, ?_⟩, ?_, ?_, ?_, ?_, ?_⟩ <;>
                simp [Db.log_playback_start, Db.log_playback_end, countEv,
                  isLogStart, isLogEnd, List.filter_append, List.map_append,
                  List.getLast?_concat]
        · have hall' : (video_limit_result env media).allowed = false := by
            simpa using hall
          have : (process_tag env cs1 uid).1.state = PlaybackState.idle := by
            simp [process_tag, htag, hmed, hv, hall']
          rw [this] at hplay
          exact absurd hplay (by decide)
      · have hstep : process_tag env cs1 uid =
            load_and_play env { cs1 with state := PlaybackState.check_limits, was_last_video := false }
              uid media [] := by
          simp [process_tag, htag, hmed, hv]
        rcases load_and_play_cases env
            { cs1 with state := PlaybackState.check_limits, was_last_video := false }
            uid media [] with
          ⟨hs, _, _⟩ | ⟨f, heq⟩
        · rw [hstep, hs] at hplay
          exact absurd hplay (by decide)
        · rw [hstep, heq]
          rw [on_playback_end_closes _ _ (env.db.log.length + 1) rfl rfl
            (Nat.succ_ne_zero _)]
          refine ⟨?_, ?_, ?_, ⟨media.id, ?_⟩, ?_, ?_, ?_, ?_, ?_⟩ <;>
            simp [Db.log_playback_start, Db.log_playback_end, countEv,
              isLogStart, isLogEnd, List.filter_append, List.map_append,
              List.getLast?_concat]

/-- C5: a successful session — a scan from IDLE (register mode off) that
reaches PLAYING, followed by the natural-completion callback — creates
exactly one playback-log row, records exactly one `log_playback_start` and
exactly one `log_playback_end` (with completed = true, on the new row), the
new row ends closed and completed with the scanned UID, and all session
fields return to their initial empty/IDLE values. -/
theorem session_round_trip
    (env : Env) (cs : CState) (uid : String)
    (hst : cs.state = PlaybackState.idle) (hreg : cs.register_mode = false)
    (hplay : (on_tag_scanned env cs uid).1.state = PlaybackState.playing) :
    (scan_then_end env cs uid).2.1.log.length = env.db.log.length + 1 ∧
    countEv (scan_then_end env cs uid).2.2 isLogStart = 1 ∧
    ((scan_then_end env cs uid).2.2.filter isLogEnd =
      [Ev.logEnd (env.db.log.length + 1) true]) ∧
    (∃ mid : Nat, (scan_then_end env cs uid).2.1.log.getLast? =
      some { id := env.db.log.length + 1, media_id := mid, tag_uid := some uid, started_at := env.now, ended := true, completed := true }) ∧
    (scan_then_end env cs uid).1.current_log_id = none ∧
    (scan_then_end env cs uid).1.current_media_id = none ∧
    (scan_then_end env cs uid).1.current_tag_uid = none ∧
    (scan_then_end env cs uid).1.was_last_video = false ∧
    (scan_then_end env cs uid).1.state = PlaybackState.idle := by
  have hscan : on_tag_scanned env cs uid =
      process_tag env { cs with last_scanned_uid := some uid } uid := by
    simp [on_tag_scanned, hreg, hst]
  rw [hscan] at hplay
  have h := process_then_end_spec env { cs with last_scanned_uid := some uid } uid hst hplay
  simp only [scan_then_end]
  rw [hscan]
  exact h

/-- Closed witness for C5: scanning `TAG1` in `sampleEnv` (audio item whose
file exists) and letting playback complete naturally. -/
theorem session_round_trip_witness :
    (scan_then_end sampleEnv {} "TAG1").2.1.log.length = sampleEnv.db.log.length + 1 ∧
    countEv (scan_then_end sampleEnv {} "TAG1").2.2 isLogStart = 1 ∧
    ((scan_then_end sampleEnv {} "TAG1").2.2.filter isLogEnd =
      [Ev.logEnd (sampleEnv.db.log.length + 1) true]) ∧
    (∃ mid : Nat, (scan_then_end sampleEnv {} "TAG1").2.1.log.getLast? =
      some { id := sampleEnv.db.log.length + 1, media_id := mid, tag_uid := some "TAG1", started_at := sampleEnv.now, ended := true, completed := true }) ∧
    (scan_then_end sampleEnv {} "TAG1").1.current_log_id = none ∧
    (scan_then_end sampleEnv {} "TAG1").1.current_media_id = none ∧
    (scan_then_end sampleEnv {} "TAG1").1.current_tag_uid = none ∧
    (scan_then_end sampleEnv {} "TAG1").1.was_last_video = false ∧
    (scan_then_end sampleEnv {} "TAG1").1.state = PlaybackState.idle :=
  session_round_trip sampleEnv {} "TAG1" rfl rfl (by decide)

/-- C10: for a media item with no recorded duration, `_process_tag`'s limit
check calls `check_video_limit` with duration 0 (Python `media.duration_s or
0`), and with duration 0 the result, when allowed, is flagged last iff the
count ceiling is reached or `stats.totalMinutes` already meets or exceeds
`maxMinutes` (the candidate contributes nothing to the projection). -/
theorem video_limit_none_duration_uses_zero :
    (∀ (env : Env) (media : Media), media.duration_s = none →
      video_limit_result env media =
        check_video_limit (get_today_video_stats env.db env.now)
          ((env.db.get_setting "daily_video_limit_count").getD 5)
          ((env.db.get_setting "daily_video_limit_minutes").getD 60) 0) ∧
    (∀ (stats : VideoStats) (mc mm : Int),
      (check_video_limit stats mc mm 0).allowed = true →
      ((check_video_limit stats mc mm 0).is_last = true ↔
        (stats.count + 1 ≥ mc ∨ stats.total_minutes ≥ (mm : ℚ)))) := by
  constructor
  · intro env media h
    unfold video_limit_result
    rw [h]
    rfl
  · intro stats mc mm h
    by_cases h1 : stats.count ≥ mc
    · simp [check_video_limit, h1] at h
    · by_cases h2 : stats.total_minutes ≥ (mm : ℚ)
      · simp only [ge_iff_le] at h1 h2
        simp [check_video_limit, h1, h2] at h
      · simp only [ge_iff_le] at h1 h2 ⊢
        simp [check_video_limit, h1, h2, Bool.or_eq_true, decide_eq_true_iff]

/-- Closed witness for C10 at `sampleVideoNoDur` and stats `⟨4, 30⟩`. -/
theorem video_limit_none_duration_uses_zero_witness :
    (video_limit_result emptyEnv sampleVideoNoDur =
      check_video_limit (get_today_video_stats emptyEnv.db emptyEnv.now)
        ((emptyEnv.db.get_setting "daily_video_limit_count").getD 5)
        ((emptyEnv.db.get_setting "daily_video_limit_minutes").getD 60) 0) ∧
    ((check_video_limit ⟨4, 30⟩ 5 60 0).is_last = true ↔
      ((4 : Int) + 1 ≥ 5 ∨ (30 : ℚ) ≥ (60 : ℚ))) :=
  ⟨video_limit_none_duration_uses_zero.1 emptyEnv sampleVideoNoDur rfl,
   video_limit_none_duration_uses_zero.2 ⟨4, 30⟩ 5 60 (by decide)⟩

/-- Window start as the spec words it: yesterday's reset time when the
current local hour is before the reset hour, today's reset time otherwise. -/
def spec_window_start (reset_hour : Int) (now : DateTime) : DateTime :=
  if now.hour < reset_hour then
    { day := now.day - 1, hour := reset_hour, minute := 0, second := 0 }
  else
    { day := now.day, hour := reset_hour, minute := 0, second := 0 }

/-- Does this playback-log row count toward today's video stats, as the spec
words it: it references VIDEO media, is completed, and started at or after
the boundary. -/
def spec_counts_row (db : Db) (boundary : DateTime) (r : LogRow) : Bool :=
  match db.get_media r.media_id with
  | some m => m.media_type == MediaType.video && r.completed && DateTime.le boundary r.started_at
  | none => false

/-- The seconds a counted row contributes: the referenced media's
`duration_s`, or nothing when the duration is missing. -/
def spec_row_duration (db : Db) (r : LogRow) : Int :=
  match db.get_media r.media_id with
  | some m => m.duration_s.getD 0
  | none => 0

/-- The join-then-filter performed by the SQL query agrees, row for row, with
filtering the log by `spec_counts_row`, both in row count and in summed
duration. -/
theorem stats_join_spec (db : Db) (b : DateTime) (l : List LogRow) :
    (((l.filterMap (fun r => (db.get_media r.media_id).map (fun m => (r, m)))).filter
        (fun rm => rm.2.media_type == MediaType.video && rm.1.completed &&
          DateTime.le b rm.1.started_at)).length =
      (l.filter (spec_counts_row db b)).length) ∧
    ((((l.filterMap (fun r => (db.get_media r.media_id).map (fun m => (r, m)))).filter
        (fun rm => rm.2.media_type == MediaType.video && rm.1.completed &&
          DateTime.le b rm.1.started_at)).map
          (fun rm => rm.2.duration_s.getD 0)).sum =
      ((l.filter (spec_counts_row db b)).map (spec_row_duration db)).sum) := by
  induction l with
  | nil => exact ⟨rfl, rfl⟩
  | cons r l ih =>
    obtain ⟨ih1, ih2⟩ := ih
    cases hf : db.get_media r.media_id with
    | none =>
      constructor <;>
        simp [List.filterMap_cons, hf, List.filter_cons, spec_counts_row,
          spec_row_duration, ih1, ih2]
    | some m =>
      by_cases hp : (m.media_type == MediaType.video && r.completed &&
          DateTime.le b r.started_at) = true
      · constructor <;>
          simp [List.filterMap_cons, hf, List.filter_cons, spec_counts_row,
            spec_row_duration, hp, ih1, ih2]
      · constructor <;>
          simp [List.filterMap_cons, hf, List.filter_cons, spec_counts_row,
            spec_row_duration, hp, ih1, ih2]

/-- C6: `get_today_video_stats` uses as window start yesterday's reset time
when the current local hour is before the configured reset hour and today's
reset time otherwise, and counts toward count/minutes exactly the
playback-log rows that are completed, reference VIDEO media, and started at
or after that boundary (summing their durations). -/
theorem get_today_video_stats_spec (db : Db) (now : DateTime) :
    get_today_video_stats db now =
      { count := ((db.log.filter (spec_counts_row db
            (spec_window_start ((db.get_setting "limit_reset_hour").getD 6) now))).length : Int),
        total_minutes := (((db.log.filter (spec_counts_row db
            (spec_window_start ((db.get_setting "limit_reset_hour").getD 6) now))).map
              (spec_row_duration db)).sum : ℚ) / 60 } := by
  have h := stats_join_spec db
    (spec_window_start ((db.get_setting "limit_reset_hour").getD 6) now) db.log
  simp only [get_today_video_stats]
  have hb : (if now.hour < (db.get_setting "limit_reset_hour").getD 6 then
      ({ day := now.day - 1, hour := (db.get_setting "limit_reset_hour").getD 6, minute := 0, second := 0 } : DateTime)
    else
      { day := now.day, hour := (db.get_setting "limit_reset_hour").getD 6, minute := 0, second := 0 }) =
      spec_window_start ((db.get_setting "limit_reset_hour").getD 6) now := rfl
  rw [hb, h.1, h.2]

end BabyBox
